import Mathlib

/-!
Verification of the Ron voice-assistant command engine (src/Ron-ai.py).

This file shallowly embeds the command classification and dispatch engine of
the source program: the `CommandType` enumeration, the `command_patterns`
table, `classify_command`, the `process` dispatch loop (with its command
history and exit-word check), the individual command handlers, the
`SpeechManager.listen` capture wrapper and the `run`/`handle_activation`
session steps.  Side effects (speaking, logging, opening URLs, OS calls,
file writes) are modelled as an explicit event list; environment-dependent
values (the current time and its formatted renderings, the weather API
outcome, the platform, preferences) are supplied by an explicit `Env`
record.  Python strings are modelled as Lean `String`s; `x in s` is plain
substring containment, `s.lower()` maps `Char.toLower` over the characters
(both the source and the model only ever lower-case ASCII), and
`s.split(sep)[-1]` is re-implemented as a left-to-right, non-overlapping
scan exactly as Python's `str.split` parses it.
-/

/-- Python `pat in hay` on lists of characters: `listPref pat l` is true iff
`pat` is a prefix of `l`. -/
def listPref : List Char → List Char → Bool
  | [], _ => true
  | _ :: _, [] => false
  | a :: as, b :: bs => a == b && listPref as bs

/-- Python `pat in hay` on lists of characters: `listSub pat hay` is true iff
`pat` occurs contiguously somewhere in `hay`. -/
def listSub (pat : List Char) : List Char → Bool
  | [] => pat.isEmpty
  | c :: t => listPref pat (c :: t) || listSub pat t

/-- Python `pattern in haystack` for strings (substring containment). -/
def strContains (haystack pattern : String) : Bool :=
  listSub pattern.toList haystack.toList

/-- Python `s.lower()`.  Both the source and this model only ever lower-case
ASCII text, where `Char.toLower` agrees with Python `str.lower`. -/
def lower (s : String) : String :=
  String.mk (s.toList.map Char.toLower)

/-- ASCII whitespace test used by `pyStrip` (the source only ever strips
spaces produced by `split`). -/
def isSpaceChar (c : Char) : Bool :=
  c == ' ' || c == '\t' || c == '\n' || c == '\r'

/-- Python `s.strip()` restricted to ASCII whitespace. -/
def pyStrip (s : String) : String :=
  String.mk (((s.toList.dropWhile isSpaceChar).reverse.dropWhile isSpaceChar).reverse)

/-- Fuelled scanner behind `pySplitLast`: returns the text after the final
separator occurrence of a left-to-right, non-overlapping parse (exactly how
Python `str.split` consumes separators), or `none` when the separator does
not occur.  Fuel `l.length` always suffices for a non-empty separator. -/
def afterSplitFuel (sep : List Char) : Nat → List Char → Option (List Char)
  | 0, _ => none
  | _ + 1, [] => none
  | fuel + 1, a :: t =>
    if listPref sep (a :: t) then
      let rest := (a :: t).drop sep.length
      some ((afterSplitFuel sep fuel rest).getD rest)
    else
      afterSplitFuel sep fuel t

/-- Python `s.split(sep)[-1]`: the last piece of the split (the whole string
when `sep` does not occur, matching `split` returning `[s]`). -/
def pySplitLast (s sep : String) : String :=
  match afterSplitFuel sep.toList s.toList.length s.toList with
  | some r => String.mk r
  | none => s

/-- The `CommandType` enum of the source (lines 58-72). -/
inductive CommandType
  | time
  | date
  | weather
  | search
  | open_app
  | system
  | volume
  | music
  | info
  | smart_home
  | reminder
  | note
  | unknown
deriving DecidableEq, Fintype, Repr

/-- The `.value` string of each `CommandType` member. -/
def CommandType.value : CommandType → String
  | .time => "time"
  | .date => "date"
  | .weather => "weather"
  | .search => "search"
  | .open_app => "open_app"
  | .system => "system"
  | .volume => "volume"
  | .music => "music"
  | .info => "info"
  | .smart_home => "smart_home"
  | .reminder => "reminder"
  | .note => "note"
  | .unknown => "unknown"

/-- `CommandProcessor.command_patterns` (lines 259-271), in the source's
declaration order; Python dicts iterate in insertion order. -/
def command_patterns : List (CommandType × List String) :=
  [(CommandType.time, ["time", "clock", "what time"]),
   (CommandType.date, ["date", "day", "what day"]),
   (CommandType.weather, ["weather", "temperature", "forecast"]),
   (CommandType.search, ["search", "google", "look up", "find"]),
   (CommandType.open_app, ["open", "launch", "start"]),
   (CommandType.volume, ["volume", "sound", "mute", "unmute"]),
   (CommandType.music, ["play music", "pause music", "stop music", "next song"]),
   (CommandType.info, ["tell me about", "what is", "who is", "define"]),
   (CommandType.smart_home, ["lights", "temperature", "thermostat", "lock", "unlock"]),
   (CommandType.reminder, ["remind", "reminder", "alert me"]),
   (CommandType.note, ["note", "write down", "remember this"])]

/-- The `for cmd_type, patterns in self.command_patterns.items()` loop of
`classify_command` (lines 277-281): first category whose pattern list has a
member occurring in the lower-cased command wins, else `UNKNOWN`. -/
def classifyAux (command_lower : String) : List (CommandType × List String) → CommandType
  | [] => CommandType.unknown
  | (cmd_type, patterns) :: rest =>
    if patterns.any (fun pattern => strContains command_lower pattern) then
      cmd_type
    else
      classifyAux command_lower rest

/-- `CommandProcessor.classify_command` (lines 273-281). -/
def classify_command (command : String) : CommandType :=
  let command_lower := lower command
  classifyAux command_lower command_patterns

/-- The categories in the fixed declared order of `command_patterns`. -/
def categoryOrder : List CommandType :=
  command_patterns.map Prod.fst

/-- The trigger-substring list of a category: its entry in
`command_patterns`, and `[]` for the two categories without an entry. -/
def patternsOf : CommandType → List String
  | .time => ["time", "clock", "what time"]
  | .date => ["date", "day", "what day"]
  | .weather => ["weather", "temperature", "forecast"]
  | .search => ["search", "google", "look up", "find"]
  | .open_app => ["open", "launch", "start"]
  | .volume => ["volume", "sound", "mute", "unmute"]
  | .music => ["play music", "pause music", "stop music", "next song"]
  | .info => ["tell me about", "what is", "who is", "define"]
  | .smart_home => ["lights", "temperature", "thermostat", "lock", "unlock"]
  | .reminder => ["remind", "reminder", "alert me"]
  | .note => ["note", "write down", "remember this"]
  | .system => []
  | .unknown => []

/-- `patternsOf` agrees with the `command_patterns` table. -/
theorem patternsOf_agrees :
    ∀ p ∈ command_patterns, patternsOf p.1 = p.2 := by decide

/-- `U` contains a trigger substring of category `c` (case-insensitively,
as `classify_command` tests it). -/
def hasTrigger (U : String) (c : CommandType) : Bool :=
  (patternsOf c).any (fun pattern => strContains (lower U) pattern)

/-- `c'` comes strictly before `c` in the fixed declared category order. -/
def earlierCat (c' c : CommandType) : Bool :=
  categoryOrder.indexOf c' < categoryOrder.indexOf c

/-- The host platform (`sys.platform`), as tested by the handlers. -/
inductive Platform
  | win32
  | darwin
  | linux
deriving DecidableEq

/-- Outcome of the weather HTTP request in `_handle_weather`: a request
exception, a 200 response carrying the (rounded) temperature, feels-like,
description and humidity, or a non-200 status. -/
inductive WeatherOutcome
  | reqError
  | ok (temp : Int) (feels_like : Int) (description : String) (humidity : Nat)
  | badStatus
deriving DecidableEq

/-- Observable side effects of the command engine: log lines, spoken
responses, opened URLs, HTTP requests, OS-level commands and file writes. -/
inductive Event
  | logInfo (msg : String)
  | logError (msg : String)
  | speak (text : String)
  | openUrl (url : String)
  | httpGet (url : String) (params : List (String × String))
  | osSystem (cmd : String)
  | subprocessRun (prog : String)
  | writeFile (path : String) (content : String)
deriving DecidableEq

/-- Environment snapshot for one processing step: the wall-clock value and
its three `strftime` renderings, `str(datetime.now())`, the preferences
city and wake words, the weather API key and outcome, and the platform. -/
structure Env where
  now : Nat
  nowRepr : String
  timeStr : String
  dateStr : String
  noteTs : String
  city : String
  apiKey : Option String
  weather : WeatherOutcome
  platform : Platform
  wakeWords : List String

/-- `_handle_time` (lines 327-335): speaks the formatted current time. -/
def handle_time (env : Env) (_command : String) : List Event :=
  [Event.speak ("It\x27s " ++ env.timeStr)]

/-- `_handle_date` (lines 337-345): speaks the formatted current date. -/
def handle_date (env : Env) (_command : String) : List Event :=
  [Event.speak ("Today is " ++ env.dateStr)]

/-- `_handle_weather` (lines 347-393): API-key check, optional city
extraction after the last `"in"`, HTTP request, and a spoken summary,
apology or error message depending on the response.  The source's inner
`len(parts) > 1` test is always true once `"in" in command` holds. -/
def handle_weather (env : Env) (command : String) : List Event :=
  match env.apiKey with
  | none =>
    [Event.speak "Weather service is not configured. Please set up your API key."]
  | some api_key =>
    let city :=
      if strContains command "in" then pyStrip (pySplitLast command "in") else env.city
    let call := Event.httpGet "http://api.openweathermap.org/data/2.5/weather"
      [("q", city), ("appid", api_key), ("units", "metric")]
    match env.weather with
    | WeatherOutcome.ok temp feels_like description humidity =>
      [call, Event.speak ("The weather in " ++ city ++ " is " ++ description ++
        " with a temperature of " ++ toString temp ++ "°C, feels like " ++
        toString feels_like ++ "°C, and humidity at " ++ toString humidity ++ "%")]
    | WeatherOutcome.badStatus =>
      [call, Event.speak ("Sorry, I couldn\x27t get weather information for " ++ city ++ ".")]
    | WeatherOutcome.reqError =>
      [call, Event.logError "Weather API error",
       Event.speak "Weather service is currently unavailable."]

/-- The `for term in terms: if term in s: s = s.split(term)[-1].strip(); break`
loop shared by the search, info and note handlers. -/
def extractAfterFirst (terms : List String) (s : String) : String :=
  match terms.find? (fun term => strContains s term) with
  | some term => pyStrip (pySplitLast s term)
  | none => s

/-- The `search_terms` list of `_handle_search` (line 399). -/
def search_terms : List String :=
  ["search for", "google", "search", "look up", "find"]

/-- The query `_handle_search` extracts from the lower-cased command. -/
def searchQuery (command : String) : String :=
  extractAfterFirst search_terms (lower command)

/-- `_handle_search` (lines 395-416): extracts the query, opens a Google
search for it and confirms, or asks what to search for. -/
def handle_search (command : String) : List Event :=
  let query := searchQuery command
  if query ≠ "" ∧ query ≠ lower command then
    [Event.openUrl ("https://www.google.com/search?q=" ++ query),
     Event.speak ("I\x27ve opened search results for " ++ query)]
  else
    [Event.speak "What would you like me to search for?"]

/-- The `apps` table of `_handle_open_app` (lines 421-427):
name, Windows command, macOS target. -/
def apps : List (String × String × String) :=
  [("calculator", "calc", "Calculator"),
   ("notepad", "notepad", "TextEdit"),
   ("browser", "start https://www.google.com", "open -a Safari"),
   ("terminal", "cmd", "Terminal"),
   ("settings", "start ms-settings:", "open -b com.apple.preference")]

/-- `_handle_open_app` (lines 418-451): first app whose name occurs in the
lower-cased command is launched in the platform-specific way. -/
def handle_open_app (env : Env) (command : String) : List Event :=
  match apps.find? (fun app => strContains (lower command) app.1) with
  | some (app_name, winCmd, macApp) =>
    let act :=
      match env.platform with
      | Platform.win32 => Event.osSystem winCmd
      | Platform.darwin => Event.osSystem ("open -a " ++ macApp)
      | Platform.linux => Event.subprocessRun app_name
    [act, Event.speak ("Opening " ++ app_name)]
  | none => [Event.speak "I\x27m not sure which application to open."]

/-- `_handle_volume` (lines 453-489): platform- and keyword-dependent
volume commands.  Note the source tests `"mute"` before `"unmute"`, and on
Windows/macOS falls through silently when no keyword matches. -/
def handle_volume (env : Env) (command : String) : List Event :=
  match env.platform with
  | Platform.win32 =>
    if strContains command "up" ∨ strContains command "increase" then
      [Event.osSystem "nircmd.exe changesysvolume 5000", Event.speak "Volume increased"]
    else if strContains command "down" ∨ strContains command "decrease" then
      [Event.osSystem "nircmd.exe changesysvolume -5000", Event.speak "Volume decreased"]
    else if strContains command "mute" then
      [Event.osSystem "nircmd.exe mutesysvolume 1", Event.speak "Muted"]
    else if strContains command "unmute" then
      [Event.osSystem "nircmd.exe mutesysvolume 0", Event.speak "Unmuted"]
    else []
  | Platform.darwin =>
    if strContains command "up" ∨ strContains command "increase" then
      [Event.osSystem "osascript -e \x27set volume output volume ((output volume of (get volume settings)) + 10)\x27",
       Event.speak "Volume increased"]
    else if strContains command "down" ∨ strContains command "decrease" then
      [Event.osSystem "osascript -e \x27set volume output volume ((output volume of (get volume settings)) - 10)\x27",
       Event.speak "Volume decreased"]
    else if strContains command "mute" then
      [Event.osSystem "osascript -e \x27set volume output muted true\x27", Event.speak "Muted"]
    else if strContains command "unmute" then
      [Event.osSystem "osascript -e \x27set volume output muted false\x27", Event.speak "Unmuted"]
    else []
  | Platform.linux =>
    [Event.speak "Volume control is not configured for this system."]

/-- `_handle_music` (lines 491-505). -/
def handle_music (command : String) : List Event :=
  if strContains command "play" then
    [Event.openUrl "https://music.youtube.com", Event.speak "Opening YouTube Music"]
  else if strContains command "pause" ∨ strContains command "stop" then
    [Event.speak "Music control requires integration with your music player."]
  else
    [Event.speak "Please specify what you\x27d like to do with music."]

/-- The `info_terms` list of `_handle_info` (line 511). -/
def info_terms : List String :=
  ["tell me about", "what is", "who is", "define"]

/-- `_handle_info` (lines 507-528): extracts the topic and opens its
Wikipedia page, or asks for a topic. -/
def handle_info (command : String) : List Event :=
  let topic := extractAfterFirst info_terms (lower command)
  if topic ≠ "" ∧ topic ≠ lower command then
    [Event.openUrl ("https://en.wikipedia.org/wiki/" ++ topic.replace " " "_"),
     Event.speak ("I\x27ve opened information about " ++ topic)]
  else
    [Event.speak "What would you like to know about?"]

/-- `_handle_smart_home` (lines 530-545). -/
def handle_smart_home (command : String) : List Event :=
  if strContains command "lights on" then
    [Event.speak "I would turn on the lights if connected to your smart home system."]
  else if strContains command "lights off" then
    [Event.speak "I would turn off the lights if connected to your smart home system."]
  else if strContains command "temperature" then
    [Event.speak "Temperature control requires smart home integration."]
  else
    [Event.speak "Smart home features require additional setup."]

/-- `_handle_reminder` (lines 547-560). -/
def handle_reminder (command : String) : List Event :=
  if strContains command "remind me to" then
    let task := pyStrip (pySplitLast command "remind me to")
    [Event.speak ("I\x27ll remind you to " ++ task ++
      ". Note: Reminder system needs to be configured.")]
  else
    [Event.speak "What would you like me to remind you about?"]

/-- The `note_terms` list of `_handle_note` (line 566). -/
def note_terms : List String :=
  ["note that", "write down", "remember"]

/-- `_handle_note` (lines 562-592): extracts the note text and writes it to
a timestamped file under `notes/`, or asks what to note down. -/
def handle_note (env : Env) (command : String) : List Event :=
  let note := extractAfterFirst note_terms (lower command)
  if note ≠ "" ∧ note ≠ lower command then
    [Event.writeFile ("notes/note_" ++ env.noteTs ++ ".txt")
       ("Note created at " ++ env.nowRepr ++ "\n" ++ note ++ "\n"),
     Event.speak ("I\x27ve saved your note: " ++ note)]
  else
    [Event.speak "What would you like me to note down?"]

/-- `_handle_unknown` (lines 594-596). -/
def handle_unknown (_command : String) : List Event :=
  [Event.speak "I\x27m not sure how to help with that. Could you please rephrase?"]

/-- A value stored in a command-history entry.  The `catV` variant exists
only so that "the entry records a command category" is a statable property;
the source's entries never contain one. -/
inductive HVal
  | timeV (t : Nat)
  | strV (s : String)
  | catV (c : CommandType)
deriving DecidableEq

/-- Is this history value a command category? -/
def HVal.isCat : HVal → Bool
  | .catV _ => true
  | _ => false

/-- A history entry, modelled as the Python dict it is: a key-value list. -/
abbrev HistoryEntry := List (String × HVal)

/-- The command history, a list of entries (`self.command_history`). -/
abbrev History := List HistoryEntry

/-- The dict appended to `self.command_history` by `process` (lines
286-290): current timestamp and the raw command, nothing else. -/
def histEntry (env : Env) (command : String) : HistoryEntry :=
  [("timestamp", HVal.timeV env.now), ("command", HVal.strV command)]

/-- The exit-word list of `process` (line 297). -/
def exit_words : List String :=
  ["goodbye", "exit", "quit", "bye"]

/-- The exit test of `process` (line 297): some exit word occurs as a
substring of the lower-cased command. -/
def hasExitWord (command : String) : Bool :=
  exit_words.any (fun word => strContains (lower command) word)

/-- The `handlers` dict of `process` (lines 302-315), pairing each routed
category with its handler; `SYSTEM` has no entry. -/
def handlersList (env : Env) : List (CommandType × (String → List Event)) :=
  [(CommandType.time, handle_time env),
   (CommandType.date, handle_date env),
   (CommandType.weather, handle_weather env),
   (CommandType.search, handle_search),
   (CommandType.open_app, handle_open_app env),
   (CommandType.volume, handle_volume env),
   (CommandType.music, handle_music),
   (CommandType.info, handle_info),
   (CommandType.smart_home, handle_smart_home),
   (CommandType.reminder, handle_reminder),
   (CommandType.note, handle_note env),
   (CommandType.unknown, handle_unknown)]

/-- The handler invocation of `process` as a may-fail action.  A handler is
an external action that may raise (the spec's ActionRegistry contract);
`process`'s `try`/`except` is what must contain such failures.  The real
table never fails: `realHandlers` wraps `handlers.get(cmd_type,
self._handle_unknown)` in `Except.ok`. -/
def realHandlers (env : Env) (cmd_type : CommandType) (command : String) :
    Except String (List Event) :=
  Except.ok ((((handlersList env).lookup cmd_type).getD handle_unknown) command)

/-- `CommandProcessor.process` (lines 283-325), for an arbitrary (possibly
failing) handler table: append the history entry, classify and log, return
`False` after a farewell if an exit word occurs, otherwise dispatch; a
handler failure is caught, logged and answered with a generic apology,
returning `True`.  Result: (continue flag, emitted events, new history). -/
def processWith (env : Env) (handler : CommandType → String → Except String (List Event))
    (history : History) (command : String) : Bool × List Event × History :=
  let history' := history ++ [histEntry env command]
  let cmd_type := classify_command command
  let evs := [Event.logInfo ("Command type: " ++ cmd_type.value)]
  if hasExitWord command then
    (false, evs ++ [Event.speak "Goodbye! It was nice talking to you."], history')
  else
    match handler cmd_type command with
    | Except.ok hevents => (true, evs ++ hevents, history')
    | Except.error e =>
      (true, evs ++ [Event.logError ("Command processing error: " ++ e),
                     Event.speak "Sorry, I encountered an error processing that command."],
       history')

/-- One capture attempt by `SpeechManager.listen` (lines 209-247), as the
environment resolves it: successful Google recognition, Google request
error with a Sphinx fallback (successful or failed), a wait timeout,
unintelligible audio, or any other recognition error. -/
inductive CaptureOutcome
  | googleOk (text : String)
  | googleReqErrorSphinxOk (text : String)
  | googleReqErrorSphinxFail
  | waitTimeout
  | unknownValue
  | otherError (msg : String)
deriving DecidableEq

/-- `SpeechManager.listen`: recognized text is lower-cased; every failure
mode returns `none` rather than raising. -/
def listen : CaptureOutcome → Option String
  | .googleOk text => some (lower text)
  | .googleReqErrorSphinxOk text => some (lower text)
  | .googleReqErrorSphinxFail => none
  | .waitTimeout => none
  | .unknownValue => none
  | .otherError _ => none

/-- `RonAI.handle_activation` (lines 663-682): prompt, capture one command,
process it and report the resulting running flag; a failed capture keeps
the session running after a "didn\x27t hear anything" response. -/
def handle_activation (env : Env)
    (handler : CommandType → String → Except String (List Event))
    (history : History) (cmdOutcome : CaptureOutcome) : Bool × List Event × History :=
  let prompt := Event.speak "Yes, how can I help you?"
  match listen cmdOutcome with
  | some command =>
    let r := processWith env handler history command
    (r.1, prompt :: r.2.1, r.2.2)
  | none =>
    (true, [prompt, Event.speak "I didn\x27t hear anything. Please try again."], history)

/-- One iteration of the `RonAI.run` wake loop (lines 638-655): a failed or
non-wake capture leaves the session running with nothing emitted; a capture
containing a wake word activates command handling. -/
def run_iteration (env : Env)
    (handler : CommandType → String → Except String (List Event))
    (history : History) (wakeOutcome cmdOutcome : CaptureOutcome) :
    Bool × List Event × History :=
  match listen wakeOutcome with
  | some text =>
    if env.wakeWords.any (fun wake_word => strContains text wake_word) then
      handle_activation env handler history cmdOutcome
    else
      (true, [], history)
  | none => (true, [], history)

/-- A concrete environment used by witnesses and counterexamples. -/
def env0 : Env :=
  { now := 0
    nowRepr := "2026-10-12 09:00:00.000000"
    timeStr := "09:00 AM"
    dateStr := "Monday, October 12, 2026"
    noteTs := "20261012_090000"
    city := "New York"
    apiKey := none
    weather := WeatherOutcome.reqError
    platform := Platform.linux
    wakeWords := ["hey ron", "ron", "hey assistant"] }

/-- A handler table that always fails, exercising the `except` branch of
`process`. -/
def failHandler (_cmd_type : CommandType) (_command : String) :
    Except String (List Event) :=
  Except.error "boom"

/-- Unfolding lemma: a matching head category is returned. -/
theorem classifyAux_cons_pos {cl : String} {c : CommandType} {pats : List String}
    {rest : List (CommandType × List String)}
    (h : pats.any (fun pattern => strContains cl pattern) = true) :
    classifyAux cl ((c, pats) :: rest) = c := by
  simp [classifyAux, h]

/-- Unfolding lemma: a non-matching head category is skipped. -/
theorem classifyAux_cons_neg {cl : String} {c : CommandType} {pats : List String}
    {rest : List (CommandType × List String)}
    (h : pats.any (fun pattern => strContains cl pattern) = false) :
    classifyAux cl ((c, pats) :: rest) = classifyAux cl rest := by
  simp [classifyAux, h]

/-- C1: first-match fixed-order classification.  If the utterance contains a
trigger substring of category `C` and no trigger substring of any category
strictly earlier in the fixed declared order (Time, Date, Weather, Search,
OpenApp, Volume, Music, Info, SmartHome, Reminder, Note), then
`classify_command` returns `C`. -/
theorem ron_C1 (U : String) (C : CommandType)
    (hC : hasTrigger U C = true)
    (hE : ∀ C', earlierCat C' C = true → hasTrigger U C' = false) :
    classify_command U = C := by
  show classifyAux (lower U) command_patterns = C
  simp only [command_patterns]
  cases C with
  | system =>
    rw [show hasTrigger U CommandType.system = false from rfl] at hC
    exact absurd hC (by decide)
  | unknown =>
    rw [show hasTrigger U CommandType.unknown = false from rfl] at hC
    exact absurd hC (by decide)
  | time =>
    simp only [hasTrigger, patternsOf] at hC
    rw [classifyAux_cons_pos hC]
  | date =>
    have e0 := hE CommandType.time (by decide)
    simp only [hasTrigger, patternsOf] at hC e0
    rw [classifyAux_cons_neg e0, classifyAux_cons_pos hC]
  | weather =>
    have e0 := hE CommandType.time (by decide)
    have e1 := hE CommandType.date (by decide)
    simp only [hasTrigger, patternsOf] at hC e0 e1
    rw [classifyAux_cons_neg e0, classifyAux_cons_neg e1, classifyAux_cons_pos hC]
  | search =>
    have e0 := hE CommandType.time (by decide)
    have e1 := hE CommandType.date (by decide)
    have e2 := hE CommandType.weather (by decide)
    simp only [hasTrigger, patternsOf] at hC e0 e1 e2
    rw [classifyAux_cons_neg e0, classifyAux_cons_neg e1, classifyAux_cons_neg e2,
      classifyAux_cons_pos hC]
  | open_app =>
    have e0 := hE CommandType.time (by decide)
    have e1 := hE CommandType.date (by decide)
    have e2 := hE CommandType.weather (by decide)
    have e3 := hE CommandType.search (by decide)
    simp only [hasTrigger, patternsOf] at hC e0 e1 e2 e3
    rw [classifyAux_cons_neg e0, classifyAux_cons_neg e1, classifyAux_cons_neg e2,
      classifyAux_cons_neg e3, classifyAux_cons_pos hC]
  | volume =>
    have e0 := hE CommandType.time (by decide)
    have e1 := hE CommandType.date (by decide)
    have e2 := hE CommandType.weather (by decide)
    have e3 := hE CommandType.search (by decide)
    have e4 := hE CommandType.open_app (by decide)
    simp only [hasTrigger, patternsOf] at hC e0 e1 e2 e3 e4
    rw [classifyAux_cons_neg e0, classifyAux_cons_neg e1, classifyAux_cons_neg e2,
      classifyAux_cons_neg e3, classifyAux_cons_neg e4, classifyAux_cons_pos hC]
  | music =>
    have e0 := hE CommandType.time (by decide)
    have e1 := hE CommandType.date (by decide)
    have e2 := hE CommandType.weather (by decide)
    have e3 := hE CommandType.search (by decide)
    have e4 := hE CommandType.open_app (by decide)
    have e5 := hE CommandType.volume (by decide)
    simp only [hasTrigger, patternsOf] at hC e0 e1 e2 e3 e4 e5
    rw [classifyAux_cons_neg e0, classifyAux_cons_neg e1, classifyAux_cons_neg e2,
      classifyAux_cons_neg e3, classifyAux_cons_neg e4, classifyAux_cons_neg e5,
      classifyAux_cons_pos hC]
  | info =>
    have e0 := hE CommandType.time (by decide)
    have e1 := hE CommandType.date (by decide)
    have e2 := hE CommandType.weather (by decide)
    have e3 := hE CommandType.search (by decide)
    have e4 := hE CommandType.open_app (by decide)
    have e5 := hE CommandType.volume (by decide)
    have e6 := hE CommandType.music (by decide)
    simp only [hasTrigger, patternsOf] at hC e0 e1 e2 e3 e4 e5 e6
    rw [classifyAux_cons_neg e0, classifyAux_cons_neg e1, classifyAux_cons_neg e2,
      classifyAux_cons_neg e3, classifyAux_cons_neg e4, classifyAux_cons_neg e5,
      classifyAux_cons_neg e6, classifyAux_cons_pos hC]
  | smart_home =>
    have e0 := hE CommandType.time (by decide)
    have e1 := hE CommandType.date (by decide)
    have e2 := hE CommandType.weather (by decide)
    have e3 := hE CommandType.search (by decide)
    have e4 := hE CommandType.open_app (by decide)
    have e5 := hE CommandType.volume (by decide)
    have e6 := hE CommandType.music (by decide)
    have e7 := hE CommandType.info (by decide)
    simp only [hasTrigger, patternsOf] at hC e0 e1 e2 e3 e4 e5 e6 e7
    rw [classifyAux_cons_neg e0, classifyAux_cons_neg e1, classifyAux_cons_neg e2,
      classifyAux_cons_neg e3, classifyAux_cons_neg e4, classifyAux_cons_neg e5,
      classifyAux_cons_neg e6, classifyAux_cons_neg e7, classifyAux_cons_pos hC]
  | reminder =>
    have e0 := hE CommandType.time (by decide)
    have e1 := hE CommandType.date (by decide)
    have e2 := hE CommandType.weather (by decide)
    have e3 := hE CommandType.search (by decide)
    have e4 := hE CommandType.open_app (by decide)
    have e5 := hE CommandType.volume (by decide)
    have e6 := hE CommandType.music (by decide)
    have e7 := hE CommandType.info (by decide)
    have e8 := hE CommandType.smart_home (by decide)
    simp only [hasTrigger, patternsOf] at hC e0 e1 e2 e3 e4 e5 e6 e7 e8
    rw [classifyAux_cons_neg e0, classifyAux_cons_neg e1, classifyAux_cons_neg e2,
      classifyAux_cons_neg e3, classifyAux_cons_neg e4, classifyAux_cons_neg e5,
      classifyAux_cons_neg e6, classifyAux_cons_neg e7, classifyAux_cons_neg e8,
      classifyAux_cons_pos hC]
  | note =>
    have e0 := hE CommandType.time (by decide)
    have e1 := hE CommandType.date (by decide)
    have e2 := hE CommandType.weather (by decide)
    have e3 := hE CommandType.search (by decide)
    have e4 := hE CommandType.open_app (by decide)
    have e5 := hE CommandType.volume (by decide)
    have e6 := hE CommandType.music (by decide)
    have e7 := hE CommandType.info (by decide)
    have e8 := hE CommandType.smart_home (by decide)
    have e9 := hE CommandType.reminder (by decide)
    simp only [hasTrigger, patternsOf] at hC e0 e1 e2 e3 e4 e5 e6 e7 e8 e9
    rw [classifyAux_cons_neg e0, classifyAux_cons_neg e1, classifyAux_cons_neg e2,
      classifyAux_cons_neg e3, classifyAux_cons_neg e4, classifyAux_cons_neg e5,
      classifyAux_cons_neg e6, classifyAux_cons_neg e7, classifyAux_cons_neg e8,
      classifyAux_cons_neg e9, classifyAux_cons_pos hC]

/-- C1 witness: "what day is it" triggers Date, no earlier category
triggers, and classification returns Date. -/
theorem ron_C1_witness :
    hasTrigger "what day is it" CommandType.date = true ∧
    classify_command "what day is it" = CommandType.date :=
  ⟨by decide, ron_C1 "what day is it" CommandType.date (by decide) (by decide)⟩

/-- C5: when an utterance contains no trigger substring of any category,
`classify_command` returns `Unknown`; the function is total (pure, no
failure mode), as it is a Lean function. -/
theorem ron_C5 (U : String) (h : ∀ c, hasTrigger U c = false) :
    classify_command U = CommandType.unknown := by
  have h0 := h CommandType.time
  have h1 := h CommandType.date
  have h2 := h CommandType.weather
  have h3 := h CommandType.search
  have h4 := h CommandType.open_app
  have h5 := h CommandType.volume
  have h6 := h CommandType.music
  have h7 := h CommandType.info
  have h8 := h CommandType.smart_home
  have h9 := h CommandType.reminder
  have h10 := h CommandType.note
  simp only [hasTrigger, patternsOf] at h0 h1 h2 h3 h4 h5 h6 h7 h8 h9 h10
  show classifyAux (lower U) command_patterns = CommandType.unknown
  simp only [command_patterns]
  rw [classifyAux_cons_neg h0, classifyAux_cons_neg h1, classifyAux_cons_neg h2,
    classifyAux_cons_neg h3, classifyAux_cons_neg h4, classifyAux_cons_neg h5,
    classifyAux_cons_neg h6, classifyAux_cons_neg h7, classifyAux_cons_neg h8,
    classifyAux_cons_neg h9, classifyAux_cons_neg h10]
  rfl

/-- C5 witness: the empty utterance triggers nothing and classifies as
Unknown. -/
theorem ron_C5_witness :
    (∀ c, hasTrigger "" c = false) ∧ classify_command "" = CommandType.unknown :=
  ⟨by decide, ron_C5 "" (by decide)⟩

/-- Every character list is a prefix of itself. -/
theorem listPref_refl (l : List Char) : listPref l l = true := by
  induction l with
  | nil => rfl
  | cons a t ih => simp [listPref, ih]

/-- A character list occurs in anything that ends with it. -/
theorem listSub_append_self (pre pat : List Char) : listSub pat (pre ++ pat) = true := by
  induction pre with
  | nil =>
    cases pat with
    | nil => rfl
    | cons a t => simp [listSub, listPref_refl]
  | cons c t ih => simp [listSub, ih]

/-- A string contains any of its own suffixes as a substring. -/
theorem strContains_append_self (pre p : String) : strContains (pre ++ p) p = true := by
  cases pre with
  | mk a =>
    cases p with
    | mk b =>
      show listSub b (a ++ b) = true
      exact listSub_append_self a b

/-- C2 counterexample: the claim says the termination check is evaluated
before classification on every cycle, but for the input "goodbye" the first
effect `process` emits is the classification log line (line 294 of the
source runs before the exit-word check of line 297); the farewell is not
the first emitted event. -/
theorem ron_C2_counterexample :
    (processWith env0 (realHandlers env0) [] "goodbye").2.1 =
      [Event.logInfo "Command type: unknown",
       Event.speak "Goodbye! It was nice talking to you."] ∧
    (processWith env0 (realHandlers env0) [] "goodbye").2.1.head? ≠
      some (Event.speak "Goodbye! It was nice talking to you.") := by
  decide

/-- C2 amended: for every utterance containing a termination phrase,
`process` returns `continueSession = false` regardless of the classified
category, emitting only the classification log and the farewell — the
termination check runs after classification but before dispatch, so no
handler is invoked. -/
theorem ron_C2_theorem (env : Env)
    (handler : CommandType → String → Except String (List Event))
    (hist : History) (U : String) (h : hasExitWord U = true) :
    processWith env handler hist U =
      (false,
       [Event.logInfo ("Command type: " ++ (classify_command U).value),
        Event.speak "Goodbye! It was nice talking to you."],
       hist ++ [histEntry env U]) := by
  simp [processWith, h]

/-- C2 witness: "goodbye play music" classifies as Music yet terminates the
session. -/
theorem ron_C2_witness :
    processWith env0 (realHandlers env0) [] "goodbye play music" =
      (false,
       [Event.logInfo ("Command type: " ++ (classify_command "goodbye play music").value),
        Event.speak "Goodbye! It was nice talking to you."],
       [] ++ [histEntry env0 "goodbye play music"]) :=
  ron_C2_theorem env0 (realHandlers env0) [] "goodbye play music" (by decide)

/-- C3: when the dispatched handler fails (and the utterance is actually
dispatched, i.e. contains no exit word, since the exit check precedes
dispatch), `process` catches the failure and returns a well-formed result
with `continueSession = true`, a logged error and a generic spoken apology;
no exception escapes (`processWith` is total by construction). -/
theorem ron_C3 (env : Env)
    (handler : CommandType → String → Except String (List Event))
    (hist : History) (U e : String)
    (hx : hasExitWord U = false)
    (hf : handler (classify_command U) U = Except.error e) :
    processWith env handler hist U =
      (true,
       [Event.logInfo ("Command type: " ++ (classify_command U).value),
        Event.logError ("Command processing error: " ++ e),
        Event.speak "Sorry, I encountered an error processing that command."],
       hist ++ [histEntry env U]) := by
  simp [processWith, hx, hf]

/-- C3 witness: an always-failing handler on "hello" still yields a
continuing, apologetic result. -/
theorem ron_C3_witness :
    processWith env0 failHandler [] "hello" =
      (true,
       [Event.logInfo ("Command type: " ++ (classify_command "hello").value),
        Event.logError ("Command processing error: " ++ "boom"),
        Event.speak "Sorry, I encountered an error processing that command."],
       [] ++ [histEntry env0 "hello"]) :=
  ron_C3 env0 failHandler [] "hello" "boom" (by decide) rfl

/-- C4 counterexample: the claim says every history entry contains the
resolved command category, but the entry `process` appends for
"hello there" holds only a timestamp and the raw utterance — it has no
"category" key and no category value at all. -/
theorem ron_C4_counterexample :
    (processWith env0 (realHandlers env0) [] "hello there").2.2 =
      [[("timestamp", HVal.timeV 0), ("command", HVal.strV "hello there")]] ∧
    List.lookup "category" (histEntry env0 "hello there") = none ∧
    (histEntry env0 "hello there").all (fun kv => !HVal.isCat kv.2) = true := by
  decide

/-- C4 amended: every processed command appends to the history exactly one
entry containing the timestamp and the raw utterance (but not the resolved
category); existing entries are never mutated or removed. -/
theorem ron_C4_theorem (env : Env)
    (handler : CommandType → String → Except String (List Event))
    (hist : History) (U : String) :
    (processWith env handler hist U).2.2 = hist ++ [histEntry env U] ∧
    histEntry env U = [("timestamp", HVal.timeV env.now), ("command", HVal.strV U)] ∧
    hist <+: (processWith env handler hist U).2.2 := by
  have key : (processWith env handler hist U).2.2 = hist ++ [histEntry env U] := by
    unfold processWith
    rcases hh : handler (classify_command U) U with e | evs <;>
      by_cases h : hasExitWord U <;> simp [h, hh]
  refine ⟨key, rfl, ?_⟩
  rw [key]
  exact List.prefix_append hist [histEntry env U]

/-- C6: the input "search for rust programming" classifies as Search and
the search handler extracts the query "rust programming" (and opens the
corresponding search results). -/
theorem ron_C6 :
    classify_command "search for rust programming" = CommandType.search ∧
    searchQuery "search for rust programming" = "rust programming" ∧
    handle_search "search for rust programming" =
      [Event.openUrl "https://www.google.com/search?q=rust programming",
       Event.speak "I\x27ve opened search results for rust programming"] := by
  decide

/-- C7: the input "what time is it" classifies as Time, processing emits a
spoken response containing the formatted time string and returns
`continueSession = true`. -/
theorem ron_C7 (env : Env) (hist : History) :
    classify_command "what time is it" = CommandType.time ∧
    processWith env (realHandlers env) hist "what time is it" =
      (true,
       [Event.logInfo "Command type: time",
        Event.speak ("It\x27s " ++ env.timeStr)],
       hist ++ [histEntry env "what time is it"]) ∧
    strContains ("It\x27s " ++ env.timeStr) env.timeStr = true :=
  ⟨by decide, rfl, strContains_append_self "It\x27s " env.timeStr⟩

/-- C8: `listen` returns `none` (rather than raising) on a capture timeout
and on unintelligible audio, and on any failed capture the session
continues: the wake loop stays running with nothing emitted, and the
activated state responds "didn\x27t hear anything" and keeps running. -/
theorem ron_C8 (env : Env)
    (handler : CommandType → String → Except String (List Event))
    (hist : History) (o c : CaptureOutcome) (h : listen o = none) :
    listen CaptureOutcome.waitTimeout = none ∧
    listen CaptureOutcome.unknownValue = none ∧
    run_iteration env handler hist o c = (true, [], hist) ∧
    handle_activation env handler hist o =
      (true, [Event.speak "Yes, how can I help you?",
              Event.speak "I didn\x27t hear anything. Please try again."], hist) := by
  refine ⟨rfl, rfl, ?_, ?_⟩
  · simp [run_iteration, h]
  · simp [handle_activation, h]

/-- C8 witness: two failed captures (timeout at the wake phase,
unintelligible at the command phase) leave the session running. -/
theorem ron_C8_witness :
    listen CaptureOutcome.waitTimeout = none ∧
    listen CaptureOutcome.unknownValue = none ∧
    run_iteration env0 (realHandlers env0) [] CaptureOutcome.waitTimeout
      CaptureOutcome.unknownValue = (true, [], []) ∧
    handle_activation env0 (realHandlers env0) [] CaptureOutcome.waitTimeout =
      (true, [Event.speak "Yes, how can I help you?",
              Event.speak "I didn\x27t hear anything. Please try again."], []) :=
  ron_C8 env0 (realHandlers env0) [] CaptureOutcome.waitTimeout
    CaptureOutcome.unknownValue rfl

/-- Helper for C9: `classifyAux` only ever returns `Unknown` or a category
keyed in its pattern list. -/
theorem classifyAux_mem (cl : String) (l : List (CommandType × List String)) :
    classifyAux cl l = CommandType.unknown ∨ classifyAux cl l ∈ l.map Prod.fst := by
  induction l with
  | nil => exact Or.inl rfl
  | cons p rest ih =>
    rcases p with ⟨c, pats⟩
    by_cases h : pats.any (fun pattern => strContains cl pattern) = true
    · right
      rw [classifyAux_cons_pos h]
      simp
    · have h' : pats.any (fun pattern => strContains cl pattern) = false := by
        simpa using h
      rw [classifyAux_cons_neg h']
      rcases ih with h1 | h2
      · exact Or.inl h1
      · right
        simp [h2]

/-- C9: the System category is unreachable — classification always yields
Unknown or one of the eleven pattern-bearing categories, never System, and
the handler dispatch table has no System entry. -/
theorem ron_C9 (U : String) (env : Env) :
    (classify_command U = CommandType.unknown ∨ classify_command U ∈ categoryOrder) ∧
    classify_command U ≠ CommandType.system ∧
    ((handlersList env).map Prod.fst).contains CommandType.system = false := by
  have hm : classify_command U = CommandType.unknown ∨
      classify_command U ∈ command_patterns.map Prod.fst :=
    classifyAux_mem (lower U) command_patterns
  refine ⟨hm, ?_, rfl⟩
  rcases hm with h | h
  · rw [h]
    decide
  · intro hc
    rw [hc] at h
    exact absurd h (by decide)

/-- C10: the termination check is plain substring containment over the
lower-cased utterance: any utterance containing "goodbye", "exit", "quit"
or "bye" anywhere — even inside a longer word such as "quite" — makes
`process` return `False`, and a captured utterance whose (already
lower-cased) text contains one shuts the session down. -/
theorem ron_C10 (env : Env)
    (handler : CommandType → String → Except String (List Event))
    (hist : History) (U : String) (o : CaptureOutcome) (w : String)
    (hU : hasExitWord U = true) (ho : listen o = some w)
    (hw : hasExitWord w = true) :
    (processWith env handler hist U).1 = false ∧
    (handle_activation env handler hist o).1 = false := by
  constructor
  · simp [processWith, hU]
  · simp [handle_activation, ho, processWith, hw]

/-- C10 witness: "quite" contains "quit", so processing it ends the
session, as does capturing the spoken text "QUITE". -/
theorem ron_C10_witness :
    (processWith env0 (realHandlers env0) [] "quite").1 = false ∧
    (handle_activation env0 (realHandlers env0) [] (CaptureOutcome.googleOk "QUITE")).1 = false :=
  ron_C10 env0 (realHandlers env0) [] "quite" (CaptureOutcome.googleOk "QUITE") "quite"
    (by decide) (by decide) (by decide)
